import Mathlib

/-!
Verification of the PixelBoost image-editing core against its specification.

The editing pipeline lives in src/frontend/src/components/ImageComparison.tsx
(canvas utilities: clamp, rgbToHsl, hslToRgb, applyConvolution, applySharpen,
applyNoiseReduction, applyBrightness, applyContrast, applySaturation,
applyAdjustments, upscaleImage, rotate90), the crop-selection state machine in
src/frontend/src/hooks/useCropSelection.ts, and the chunked-upload service in
src/backend/main.mo.  JavaScript numbers are embedded as rationals (ℚ);
JS Math.round is round-half-up, which coincides with Mathlib's round on ℚ.
Canvas drawImage resampling (used by free rotation and by the upscaler) is a
browser primitive external to the repository; those two operations are taken
as explicit function parameters, while all size arithmetic, guards and
orchestration around them are translated from the source.
-/

namespace PixelBoost

/-- An RGBA pixel: four 8-bit channels, modelled as naturals (every channel
the source writes is produced by clamping to [0, 255]). -/
structure RGBA where
  r : Nat
  g : Nat
  b : Nat
  a : Nat
  deriving DecidableEq

/-- The fully transparent pixel a fresh canvas is initialised with. -/
def transparent : RGBA := ⟨0, 0, 0, 0⟩

/-- A bitmap: width, height and the RGBA pixel buffer (an ImageData holds
width * height pixels; that invariant is carried as a hypothesis where a
theorem needs it). -/
structure Bitmap where
  width : Nat
  height : Nat
  data : List RGBA
  deriving DecidableEq

/-- Pixel of a bitmap at (x, y): entry y * width + x of the buffer. -/
def getPx (bm : Bitmap) (x y : Nat) : RGBA :=
  bm.data.getD (y * bm.width + x) transparent

/-- clamp from imageProcessing: Math.max(0, Math.min(255, Math.round(v))). -/
def clamp (v : ℚ) : Nat :=
  (max 0 (min 255 (round v))).toNat

/-- rgbToHsl from imageProcessing (all result components 0-1).  The JS
switch (max) statement compares max against r, then g, then b. -/
def rgbToHsl (r0 g0 b0 : Nat) : ℚ × ℚ × ℚ :=
  let r : ℚ := r0 / 255
  let g : ℚ := g0 / 255
  let b : ℚ := b0 / 255
  let mx := max r (max g b)
  let mn := min r (min g b)
  let l := (mx + mn) / 2
  if mx = mn then (0, 0, l)
  else
    let d := mx - mn
    let s := if l > 1 / 2 then d / (2 - mx - mn) else d / (mx + mn)
    let h :=
      if mx = r then ((g - b) / d + (if g < b then 6 else 0)) / 6
      else if mx = g then ((b - r) / d + 2) / 6
      else ((r - g) / d + 4) / 6
    (h, s, l)

/-- hue2rgb from imageProcessing (the two leading conditionals of the JS
source are sequential, so the second tests the value updated by the first). -/
def hue2rgb (p q t0 : ℚ) : ℚ :=
  let t1 := if t0 < 0 then t0 + 1 else t0
  let t := if t1 > 1 then t1 - 1 else t1
  if t < 1 / 6 then p + (q - p) * 6 * t
  else if t < 1 / 2 then q
  else if t < 2 / 3 then p + (q - p) * (2 / 3 - t) * 6
  else p

/-- hslToRgb from imageProcessing. -/
def hslToRgb (h s l : ℚ) : Nat × Nat × Nat :=
  if s = 0 then
    let v := (round (l * 255)).toNat
    (v, v, v)
  else
    let q := if l < 1 / 2 then l * (1 + s) else l + s - l * s
    let p := 2 * l - q
    ((round (hue2rgb p q (h + 1 / 3) * 255)).toNat,
     (round (hue2rgb p q h * 255)).toNat,
     (round (hue2rgb p q (h - 1 / 3) * 255)).toNat)

/-- The nine kernel positions (kx, ky) in the order the source loops visit
them: ky from -1 to 1 outside, kx from -1 to 1 inside. -/
def offsets : List (Int × Int) :=
  [(-1, -1), (0, -1), (1, -1), (-1, 0), (0, 0), (1, 0), (-1, 1), (0, 1), (1, 1)]

/-- Clamped sample coordinate of applyConvolution:
Math.min(size - 1, Math.max(0, c + k)). -/
def clampCoord (c : Nat) (k : Int) (size : Nat) : Nat :=
  (min ((size : Int) - 1) (max 0 ((c : Int) + k))).toNat

/-- The accumulated value of one colour channel of applyConvolution at
(x, y): the 3x3 neighbourhood sampled with clamped coordinates, each sample
multiplied by kernel[(ky + 1) * 3 + (kx + 1)]. -/
def convChannel (bm : Bitmap) (kernel : List ℚ) (x y : Nat) (sel : RGBA → Nat) : ℚ :=
  (offsets.map (fun p =>
    (sel (getPx bm (clampCoord x p.1 bm.width) (clampCoord y p.2 bm.height)) : ℚ) *
      kernel.getD ((p.2 + 1) * 3 + (p.1 + 1)).toNat 0)).sum

/-- applyConvolution from imageProcessing: a 3x3 kernel applied to R, G, B
with edge-replicated sampling; the alpha of the input pixel at the same
position is copied to the output. -/
def applyConvolution (bm : Bitmap) (kernel : List ℚ) (divisor : ℚ) : Bitmap :=
  { width := bm.width
    height := bm.height
    data := (List.range (bm.width * bm.height)).map (fun i =>
      let x := i % bm.width
      let y := i / bm.width
      { r := clamp (convChannel bm kernel x y RGBA.r / divisor)
        g := clamp (convChannel bm kernel x y RGBA.g / divisor)
        b := clamp (convChannel bm kernel x y RGBA.b / divisor)
        a := (getPx bm x y).a }) }

/-- applySharpen from imageProcessing: identity for intensity <= 0, else an
unsharp-mask kernel with centre 1 + 8t and edges -t, divisor 1. -/
def applySharpen (bm : Bitmap) (intensity : ℚ) : Bitmap :=
  if intensity ≤ 0 then bm
  else
    let t := intensity / 100
    let center := 1 + 8 * t
    let edge := -t
    applyConvolution bm [edge, edge, edge, edge, center, edge, edge, edge, edge] 1

/-- The uniform box-blur kernel of applyNoiseReduction. -/
def blurKernel : List ℚ := [1, 1, 1, 1, 1, 1, 1, 1, 1]

/-- applyNoiseReduction from imageProcessing: identity for intensity <= 0,
else round((intensity / 100) * 2) sequential box-blur passes. -/
def applyNoiseReduction (bm : Bitmap) (intensity : ℚ) : Bitmap :=
  if intensity ≤ 0 then bm
  else
    let passes := (round (intensity / 100 * 2)).toNat
    (fun b => applyConvolution b blurKernel 9)^[passes] bm

/-- A bitmap with every pixel transformed pointwise (the filters below build
an output buffer of the same length as the input). -/
def mapPixels (bm : Bitmap) (f : RGBA → RGBA) : Bitmap :=
  { width := bm.width, height := bm.height, data := bm.data.map f }

/-- applyBrightness from imageProcessing: identity at 0, else add
(brightness / 100) * 128 to R, G, B, clamped; alpha copied. -/
def applyBrightness (bm : Bitmap) (brightness : ℚ) : Bitmap :=
  if brightness = 0 then bm
  else
    let offset := brightness / 100 * 128
    mapPixels bm (fun p =>
      { r := clamp ((p.r : ℚ) + offset)
        g := clamp ((p.g : ℚ) + offset)
        b := clamp ((p.b : ℚ) + offset)
        a := p.a })

/-- applyContrast from imageProcessing: identity at 0, else
factor * (channel - 128) + 128 with factor = 259(c + 255) / (255(259 - c)). -/
def applyContrast (bm : Bitmap) (contrast : ℚ) : Bitmap :=
  if contrast = 0 then bm
  else
    let factor := 259 * (contrast + 255) / (255 * (259 - contrast))
    mapPixels bm (fun p =>
      { r := clamp (factor * ((p.r : ℚ) - 128) + 128)
        g := clamp (factor * ((p.g : ℚ) - 128) + 128)
        b := clamp (factor * ((p.b : ℚ) - 128) + 128)
        a := p.a })

/-- applySaturation from imageProcessing: identity at 100, else scale the
HSL saturation of each pixel by saturation / 100, clamped to [0, 1]. -/
def applySaturation (bm : Bitmap) (saturation : ℚ) : Bitmap :=
  if saturation = 100 then bm
  else
    let factor := saturation / 100
    mapPixels bm (fun p =>
      let hsl := rgbToHsl p.r p.g p.b
      let newS := min 1 (max 0 (hsl.2.1 * factor))
      let rgb := hslToRgb hsl.1 newS hsl.2.2
      { r := rgb.1, g := rgb.2.1, b := rgb.2.2, a := p.a })

/-- CropRect from imageProcessing: a rectangle in native pixel coordinates. -/
structure CropRect where
  x : ℚ
  y : ℚ
  w : ℚ
  h : ℚ
  deriving DecidableEq

/-- The crop block of applyAdjustments (and of handleCropConfirm): a fresh
canvas of size round(w) x round(h) receives drawImage of the source
subrectangle anchored at (round x, round y) with no scaling; destination
pixels whose source coordinate lies outside the source keep the transparent
pixels of the fresh canvas. -/
def cropBitmap (bm : Bitmap) (rect : CropRect) : Bitmap :=
  let w := (round rect.w).toNat
  let h := (round rect.h).toNat
  let sx := round rect.x
  let sy := round rect.y
  { width := w
    height := h
    data := (List.range (w * h)).map (fun i =>
      let x := i % w
      let y := i / w
      let px := sx + x
      let py := sy + y
      if 0 ≤ px ∧ px < (bm.width : Int) ∧ 0 ≤ py ∧ py < (bm.height : Int) then
        getPx bm px.toNat py.toNat
      else transparent) }

/-- The option record taken by applyAdjustments. -/
structure AdjustOptions where
  brightness : ℚ
  contrast : ℚ
  saturation : ℚ
  sharpness : ℚ
  noiseReduction : ℚ
  rotation : ℚ
  cropRect : Option CropRect
  deriving DecidableEq

/-- applyAdjustments from imageProcessing.  The free-rotation block
(ctx.rotate plus drawImage with browser resampling) is an external canvas
primitive and is taken as the parameter rotatePrim (angle in degrees and
input bitmap to rotated bitmap); the crop guard, the rotation guard, the
pixel-filter chain and its order are the source's own code.  The working
canvas starts as a drawImage copy of the source canvas, so the source
bitmap is never written to. -/
def applyAdjustments (rotatePrim : ℚ → Bitmap → Bitmap) (sourceCanvas : Bitmap)
    (opts : AdjustOptions) : Bitmap :=
  let work0 := sourceCanvas
  let work1 := match opts.cropRect with
    | some r => if r.w > 0 ∧ r.h > 0 then cropBitmap work0 r else work0
    | none => work0
  let work2 := if opts.rotation ≠ 0 then rotatePrim opts.rotation work1 else work1
  let d1 := applyNoiseReduction work2 opts.noiseReduction
  let d2 := applyBrightness d1 opts.brightness
  let d3 := applyContrast d2 opts.contrast
  let d4 := applySaturation d3 opts.saturation
  let d5 := applySharpen d4 opts.sharpness
  d5

/-- upscaleImage from imageProcessing.  Canvas drawImage resampling (the
browser's high-quality smoothing) is an external primitive, taken as the
parameter resample (source bitmap and target width and height to resampled
pixel buffer); the two-step size arithmetic is the source's own code: an
intermediate canvas of round(1.5 w) x round(1.5 h) and a final canvas of
2w x 2h drawn from the intermediate one. -/
def upscaleImage (resample : Bitmap → Nat → Nat → List RGBA) (img : Bitmap) : Bitmap :=
  let targetW := img.width * 2
  let targetH := img.height * 2
  let s1w := (round ((img.width : ℚ) * 1.5)).toNat
  let s1h := (round ((img.height : ℚ) * 1.5)).toNat
  let step1 : Bitmap := ⟨s1w, s1h, resample img s1w s1h⟩
  let step2 : Bitmap := ⟨targetW, targetH, resample step1 targetW targetH⟩
  step2

/-- rotate90 from imageProcessing.  The output canvas has the source
dimensions swapped; at exactly 90 degrees the canvas transform
(translate then rotate then drawImage) denotes an exact pixel permutation:
clockwise sends source pixel (sx, sy) to destination (height - 1 - sy, sx),
counter-clockwise sends it to (sy, width - 1 - sx).  That permutation is
what is embedded. -/
def rotate90 (canvas : Bitmap) (clockwise : Bool) : Bitmap :=
  let ow := canvas.height
  let oh := canvas.width
  { width := ow
    height := oh
    data := (List.range (ow * oh)).map (fun i =>
      let x := i % ow
      let y := i / ow
      if clockwise then getPx canvas y (canvas.height - 1 - x)
      else getPx canvas (canvas.width - 1 - y) x) }

/-- The state of the useCropSelection hook: the isActive, rect and
isDragging React states plus the startRef drag anchor. -/
structure CropSelState where
  isActive : Bool
  rect : Option CropRect
  isDragging : Bool
  start : Option (ℚ × ℚ)
  deriving DecidableEq

/-- The dimension arguments of useCropSelection. -/
structure CropConfig where
  canvasDisplayWidth : ℚ
  canvasDisplayHeight : ℚ
  imageNaturalWidth : ℚ
  imageNaturalHeight : ℚ
  deriving DecidableEq

/-- scaleX from useCropSelection: imageNaturalWidth / (canvasDisplayWidth or
1 when the display width is zero, the JS falsy guard). -/
def scaleX (cfg : CropConfig) : ℚ :=
  cfg.imageNaturalWidth /
    (if cfg.canvasDisplayWidth = 0 then 1 else cfg.canvasDisplayWidth)

/-- scaleY from useCropSelection. -/
def scaleY (cfg : CropConfig) : ℚ :=
  cfg.imageNaturalHeight /
    (if cfg.canvasDisplayHeight = 0 then 1 else cfg.canvasDisplayHeight)

/-- getRelativePos from useCropSelection, on the pointer position already
made relative to the overlay bounds: both coordinates are clamped to
[0, canvasDisplayWidth] x [0, canvasDisplayHeight]. -/
def getRelativePos (cfg : CropConfig) (cx cy : ℚ) : ℚ × ℚ :=
  (max 0 (min cfg.canvasDisplayWidth cx), max 0 (min cfg.canvasDisplayHeight cy))

/-- handleMouseDown from useCropSelection: while active, record the anchor
and start a zero-size rect at the anchor scaled to native coordinates. -/
def handleMouseDown (cfg : CropConfig) (s : CropSelState) (cx cy : ℚ) : CropSelState :=
  if s.isActive then
    let pos := getRelativePos cfg cx cy
    { s with start := some pos
             rect := some ⟨pos.1 * scaleX cfg, pos.2 * scaleY cfg, 0, 0⟩
             isDragging := true }
  else s

/-- handleMouseMove from useCropSelection: while dragging, the rect spans
the anchor and the clamped pointer position, scaled to native coordinates. -/
def handleMouseMove (cfg : CropConfig) (s : CropSelState) (cx cy : ℚ) : CropSelState :=
  if s.isDragging then
    match s.start with
    | some st =>
      let pos := getRelativePos cfg cx cy
      let x := min st.1 pos.1
      let y := min st.2 pos.2
      let w := |pos.1 - st.1|
      let h := |pos.2 - st.2|
      { s with rect := some ⟨x * scaleX cfg, y * scaleY cfg, w * scaleX cfg, h * scaleY cfg⟩ }
    | none => s
  else s

/-- handleMouseUp from useCropSelection. -/
def handleMouseUp (s : CropSelState) : CropSelState :=
  { s with isDragging := false }

/-- activateCrop from useCropSelection. -/
def activateCrop (s : CropSelState) : CropSelState :=
  { s with isActive := true, rect := none }

/-- cancelCrop from useCropSelection. -/
def cancelCrop (s : CropSelState) : CropSelState :=
  { s with isActive := false, rect := none, isDragging := false, start := none }

/-- confirmCrop from useCropSelection: returns the confirmed rect (or none)
together with the state after the call. -/
def confirmCrop (s : CropSelState) : Option CropRect × CropSelState :=
  match s.rect with
  | none => (none, s)
  | some r =>
    if r.w < 4 ∨ r.h < 4 then (none, s)
    else (some r, { s with isActive := false, isDragging := false, start := none })

/-- Lookup in the association-list model of mo:core Map. -/
def mapGet {α β : Type} [BEq α] (m : List (α × β)) (k : α) : Option β :=
  (m.find? (fun e => e.1 == k)).map Prod.snd

/-- Map.add: insert or replace the entry for a key (keeps keys distinct). -/
def mapAdd {α β : Type} [BEq α] (m : List (α × β)) (k : α) (v : β) : List (α × β) :=
  (k, v) :: m.filter (fun e => e.1 != k)

/-- Map.remove. -/
def mapRemove {α β : Type} [BEq α] (m : List (α × β)) (k : α) : List (α × β) :=
  m.filter (fun e => e.1 != k)

/-- Map.size: the number of stored entries. -/
def mapSize {α β : Type} (m : List (α × β)) : Nat :=
  m.length

/-- UploadSession from main.mo; a chunk is a byte array, bytes as naturals. -/
structure UploadSession where
  totalChunks : Nat
  receivedChunks : List (Nat × List Nat)
  fileType : String
  deriving DecidableEq

/-- EnhancementMode from main.mo. -/
inductive EnhancementMode
  | standard
  | anime
  deriving DecidableEq

/-- The persistent actor state of main.mo. -/
structure BackendState where
  images : List (String × List Nat)
  uploadSessions : List (String × UploadSession)
  nextImageId : Nat
  deriving DecidableEq

/-- initUpload from main.mo. -/
def initUpload (st : BackendState) (totalChunks : Nat) (fileType : String) :
    String × BackendState :=
  let sessionId := "Session-" ++ toString st.nextImageId
  (sessionId,
   { st with
       nextImageId := st.nextImageId + 1
       uploadSessions := mapAdd st.uploadSessions sessionId
         ⟨totalChunks, [], fileType⟩ })

/-- uploadChunk from main.mo; none models the trap on a missing session. -/
def uploadChunk (st : BackendState) (sessionId : String) (chunkIndex : Nat)
    (d : List Nat) : Option BackendState :=
  match mapGet st.uploadSessions sessionId with
  | none => none
  | some session =>
    some { st with
             uploadSessions := mapAdd st.uploadSessions sessionId
               { session with receivedChunks := mapAdd session.receivedChunks chunkIndex d } }

/-- assembleChunks from main.mo: the chunks at indices 0 .. totalChunks - 1
concatenated in increasing index order (finalizeUpload only calls it after
checking every index is present, so the trap on a missing chunk is
unreachable there; a missing chunk contributes the empty array here). -/
def assembleChunks (session : UploadSession) : List Nat :=
  ((List.range session.totalChunks).map
    (fun i => (mapGet session.receivedChunks i).getD [])).flatten

/-- applyEnhancement from main.mo: concat of the empty array and the image. -/
def applyEnhancement (image : List Nat) (mode : EnhancementMode) : List Nat :=
  let result : List Nat := []
  result ++ image

/-- The result record of finalizeUpload. -/
structure FinalizeResult where
  ok : Option (String × List Nat)
  err : String
  deriving DecidableEq

/-- finalizeUpload from main.mo, returning the result and the state after
the call. -/
def finalizeUpload (st : BackendState) (sessionId : String) (mode : EnhancementMode) :
    FinalizeResult × BackendState :=
  match mapGet st.uploadSessions sessionId with
  | none => (⟨none, "no upload session found"⟩, st)
  | some session =>
    if mapSize session.receivedChunks ≠ session.totalChunks then
      (⟨none, "all chunks not received yet"⟩, st)
    else
      match (List.range session.totalChunks).find?
          (fun i => (mapGet session.receivedChunks i).isNone) with
      | some i => (⟨none, "missing chunk at index " ++ toString i⟩, st)
      | none =>
        let finalImage := assembleChunks session
        let imageId := "image-" ++ toString st.nextImageId
        let enhancedImage :=
          if finalImage ≠ [] then
            let processed := applyEnhancement finalImage mode
            if processed ≠ [] then processed else finalImage
          else []
        (⟨some (imageId, enhancedImage), ""⟩,
         { images := mapAdd st.images imageId enhancedImage
           uploadSessions := mapRemove st.uploadSessions sessionId
           nextImageId := st.nextImageId + 1 })

/-- EnhancementValues from ImageEnhancementControls. -/
structure EnhancementValues where
  brightness : ℚ
  contrast : ℚ
  saturation : ℚ
  sharpness : ℚ
  noiseReduction : ℚ
  rotation : ℚ
  deriving DecidableEq

/-- DEFAULT_ENHANCEMENT_VALUES from ImageEnhancementControls. -/
def DEFAULT_ENHANCEMENT_VALUES : EnhancementValues :=
  ⟨0, 0, 100, 0, 0, 0⟩

/-- The six controls of the panel. -/
inductive EField
  | brightness
  | contrast
  | saturation
  | sharpness
  | noiseReduction
  | rotation
  deriving DecidableEq

/-- The (min, max) props each SliderRow is instantiated with in
ImageEnhancementControls. -/
def fieldBounds : EField → ℚ × ℚ
  | .brightness => (-100, 100)
  | .contrast => (-100, 100)
  | .saturation => (0, 200)
  | .sharpness => (0, 100)
  | .noiseReduction => (0, 100)
  | .rotation => (-45, 45)

/-- Modelled from the spec: the Slider UI component (components/ui/slider,
referenced by ImageEnhancementControls but not present under src/) emits
only values clamped to its [min, max] props — "each field independently
clamped to its range". -/
def sliderClamp (lo hi v : ℚ) : ℚ :=
  max lo (min hi v)

/-- ImageEnhancementControls.set composed with the slider clamping: the
single-field functional record update onChange receives. -/
def setField (vals : EnhancementValues) (f : EField) (v : ℚ) : EnhancementValues :=
  let w := sliderClamp (fieldBounds f).1 (fieldBounds f).2 v
  match f with
  | .brightness => { vals with brightness := w }
  | .contrast => { vals with contrast := w }
  | .saturation => { vals with saturation := w }
  | .sharpness => { vals with sharpness := w }
  | .noiseReduction => { vals with noiseReduction := w }
  | .rotation => { vals with rotation := w }

/-- Every field lies within its declared range. -/
def validValues (vals : EnhancementValues) : Prop :=
  -100 ≤ vals.brightness ∧ vals.brightness ≤ 100 ∧
  -100 ≤ vals.contrast ∧ vals.contrast ≤ 100 ∧
  0 ≤ vals.saturation ∧ vals.saturation ≤ 200 ∧
  0 ≤ vals.sharpness ∧ vals.sharpness ≤ 100 ∧
  0 ≤ vals.noiseReduction ∧ vals.noiseReduction ≤ 100 ∧
  -45 ≤ vals.rotation ∧ vals.rotation ≤ 45

instance (vals : EnhancementValues) : Decidable (validValues vals) := by
  unfold validValues
  infer_instance

/-! ## Helper lemmas -/

theorem applyNoiseReduction_neutral (img : Bitmap) : applyNoiseReduction img 0 = img := by
  simp [applyNoiseReduction]

theorem applyBrightness_neutral (img : Bitmap) : applyBrightness img 0 = img := by
  simp [applyBrightness]

theorem applyContrast_neutral (img : Bitmap) : applyContrast img 0 = img := by
  simp [applyContrast]

theorem applySaturation_neutral (img : Bitmap) : applySaturation img 100 = img := by
  simp [applySaturation]

theorem applySharpen_neutral (img : Bitmap) : applySharpen img 0 = img := by
  simp [applySharpen]

theorem mul_index_lt {w h x y : Nat} (hx : x < w) (hy : y < h) :
    y * w + x < w * h := by
  have h1 : y * w + x < (y + 1) * w := by
    rw [Nat.succ_mul]
    exact Nat.add_lt_add_left hx _
  calc y * w + x < (y + 1) * w := h1
    _ ≤ h * w := Nat.mul_le_mul_right w hy
    _ = w * h := Nat.mul_comm h w

theorem getPx_mk_range {w h : Nat} (f : Nat → RGBA) {x y : Nat}
    (hx : x < w) (hy : y < h) :
    getPx ⟨w, h, (List.range (w * h)).map f⟩ x y = f (y * w + x) := by
  have hidx := mul_index_lt hx hy
  simp [getPx, List.getElem?_range hidx]

theorem decode_mod {w x y : Nat} (hx : x < w) : (y * w + x) % w = x := by
  rw [Nat.add_comm, Nat.add_mul_mod_self_right, Nat.mod_eq_of_lt hx]

theorem decode_div {w x y : Nat} (hx : x < w) : (y * w + x) / w = y := by
  rw [Nat.add_comm, Nat.add_mul_div_right _ _ (Nat.zero_lt_of_lt hx),
    Nat.div_eq_of_lt hx, Nat.zero_add]

theorem list_getD_of_lt {α : Type} (d : List α) {i : Nat} (hd : i < d.length) (a : α) :
    d.getD i a = d.get ⟨i, hd⟩ := by
  simp [List.getD_eq_getElem?_getD, List.getElem?_eq_getElem hd]

theorem bitmap_ext {b1 b2 : Bitmap} (hw : b1.width = b2.width)
    (hh : b1.height = b2.height)
    (hl1 : b1.data.length = b1.width * b1.height)
    (hl2 : b2.data.length = b2.width * b2.height)
    (hpx : ∀ x y, x < b2.width → y < b2.height → getPx b1 x y = getPx b2 x y) :
    b1 = b2 := by
  obtain ⟨w1, h1, d1⟩ := b1
  obtain ⟨w2, h2, d2⟩ := b2
  simp only at hw hh hl1 hl2 hpx
  subst hw hh
  have hlen : d1.length = d2.length := by rw [hl1, hl2]
  have hdata : d1 = d2 := by
    apply List.ext_getElem hlen
    intro i ha hb
    have hi2 : i < w1 * h1 := by rw [← hl1]; exact ha
    have hw0 : 0 < w1 := by
      rcases Nat.eq_zero_or_pos w1 with h0 | h0
      · subst h0; simp at hi2
      · exact h0
    have hx : i % w1 < w1 := Nat.mod_lt _ hw0
    have hy : i / w1 < h1 := by
      rw [Nat.div_lt_iff_lt_mul hw0]
      calc i < w1 * h1 := hi2
        _ = h1 * w1 := Nat.mul_comm w1 h1
    have hrec : i / w1 * w1 + i % w1 = i := by
      rw [Nat.mul_comm]
      exact Nat.div_add_mod i w1
    have h1e : d1[i] = getPx ⟨w1, h1, d1⟩ (i % w1) (i / w1) := by
      show d1[i] = d1.getD (i / w1 * w1 + i % w1) transparent
      rw [hrec, list_getD_of_lt d1 ha]
      simp
    have h2e : d2[i] = getPx ⟨w1, h1, d2⟩ (i % w1) (i / w1) := by
      show d2[i] = d2.getD (i / w1 * w1 + i % w1) transparent
      rw [hrec, list_getD_of_lt d2 hb]
      simp
    rw [h1e, h2e, hpx _ _ hx hy]
  rw [hdata]

theorem getPx_rotate90_cw (bm : Bitmap) {x y : Nat}
    (hx : x < bm.height) (hy : y < bm.width) :
    getPx (rotate90 bm true) x y = getPx bm y (bm.height - 1 - x) := by
  unfold rotate90
  rw [getPx_mk_range _ hx hy]
  simp only [decode_mod hx, decode_div hx, if_true]

theorem getPx_rotate90_ccw (bm : Bitmap) {x y : Nat}
    (hx : x < bm.height) (hy : y < bm.width) :
    getPx (rotate90 bm false) x y = getPx bm (bm.width - 1 - y) x := by
  unfold rotate90
  rw [getPx_mk_range _ hx hy]
  simp only [decode_mod hx, decode_div hx, Bool.false_eq_true, if_false]

/-! ## Claim theorems -/

/-- C4: each pixel filter is the identity at its neutral parameter, returning
the input unchanged through its short-circuit guard: Brightness at 0,
Contrast at 0, Saturation at 100, Sharpen at 0, NoiseReduction at 0. -/
theorem filters_identity_at_neutral (img : Bitmap) :
    applyBrightness img 0 = img ∧ applyContrast img 0 = img ∧
    applySaturation img 100 = img ∧ applySharpen img 0 = img ∧
    applyNoiseReduction img 0 = img :=
  ⟨applyBrightness_neutral img, applyContrast_neutral img,
   applySaturation_neutral img, applySharpen_neutral img,
   applyNoiseReduction_neutral img⟩

/-- C1: for every rotation primitive, base bitmap, values and optional
pending crop rect, applyAdjustments is exactly the composition: crop first
(only when the pending rect has positive width and height), then free
rotation (only when the rotation value is nonzero), then NoiseReduction,
Brightness, Contrast, Saturation, Sharpen in that order; each filter is the
identity at its neutral value, and at all-neutral values with no pending
crop the output equals the base bitmap unchanged (the embedding is pure, so
the base is never mutated; the output is a fresh value). -/
theorem applyAdjustments_order (rotatePrim : ℚ → Bitmap → Bitmap)
    (base : Bitmap) (opts : AdjustOptions) :
    (applyAdjustments rotatePrim base opts =
      applySharpen
        (applySaturation
          (applyContrast
            (applyBrightness
              (applyNoiseReduction
                ((fun g => if opts.rotation ≠ 0 then rotatePrim opts.rotation g else g)
                  (match opts.cropRect with
                   | some r => if r.w > 0 ∧ r.h > 0 then cropBitmap base r else base
                   | none => base))
                opts.noiseReduction)
              opts.brightness)
            opts.contrast)
          opts.saturation)
        opts.sharpness)
    ∧ (∀ img : Bitmap,
        applyNoiseReduction img 0 = img ∧ applyBrightness img 0 = img ∧
        applyContrast img 0 = img ∧ applySaturation img 100 = img ∧
        applySharpen img 0 = img)
    ∧ applyAdjustments rotatePrim base ⟨0, 0, 100, 0, 0, 0, none⟩ = base := by
  refine ⟨rfl, ?_, ?_⟩
  · intro img
    exact ⟨applyNoiseReduction_neutral img, applyBrightness_neutral img,
      applyContrast_neutral img, applySaturation_neutral img, applySharpen_neutral img⟩
  · show applySharpen (applySaturation (applyContrast (applyBrightness
      (applyNoiseReduction base 0) 0) 0) 100) 0 = base
    rw [applyNoiseReduction_neutral, applyBrightness_neutral, applyContrast_neutral,
      applySaturation_neutral, applySharpen_neutral]

/-- C5: for every resampling primitive and every source bitmap of
dimensions (w, h), upscaleImage produces a bitmap of dimensions exactly
(2w, 2h), and it does so in two resampling passes: a first pass from the
source to an intermediate bitmap of round(1.5 w) x round(1.5 h), and a
second pass from that intermediate bitmap to 2w x 2h — not a single-step
2x resize of the source. -/
theorem upscaleImage_dims_two_pass (resample : Bitmap → Nat → Nat → List RGBA)
    (img : Bitmap) :
    (upscaleImage resample img).width = 2 * img.width ∧
    (upscaleImage resample img).height = 2 * img.height ∧
    upscaleImage resample img =
      ⟨img.width * 2, img.height * 2,
       resample
         ⟨(round ((img.width : ℚ) * 1.5)).toNat,
          (round ((img.height : ℚ) * 1.5)).toNat,
          resample img (round ((img.width : ℚ) * 1.5)).toNat
            (round ((img.height : ℚ) * 1.5)).toNat⟩
         (img.width * 2) (img.height * 2)⟩ := by
  refine ⟨?_, ?_, rfl⟩ <;> simp [upscaleImage, Nat.mul_comm]

/-- C6: a single rotate90, in either direction, swaps the dimensions
(newWidth = oldHeight, newHeight = oldWidth), and four rotate90 in the same
direction return a bitmap of the original dimensions with pixel values equal
to the original: the rotation is an exact, lossless permutation. -/
theorem rotate90_swap_fourfold_identity (bm : Bitmap) (clockwise : Bool)
    (hlen : bm.data.length = bm.width * bm.height) :
    (rotate90 bm clockwise).width = bm.height ∧
    (rotate90 bm clockwise).height = bm.width ∧
    rotate90 (rotate90 (rotate90 (rotate90 bm clockwise) clockwise) clockwise) clockwise
      = bm := by
  refine ⟨rfl, rfl, ?_⟩
  refine bitmap_ext ?_ ?_ ?_ hlen ?_
  · rfl
  · rfl
  · show (List.map _ (List.range (bm.width * bm.height))).length = bm.width * bm.height
    simp
  · intro x y hx hy
    cases clockwise with
    | true =>
      have e1 : getPx (rotate90 (rotate90 (rotate90 (rotate90 bm true) true) true) true) x y
          = getPx (rotate90 (rotate90 (rotate90 bm true) true) true) y (bm.width - 1 - x) :=
        getPx_rotate90_cw _ hx hy
      have e2 : getPx (rotate90 (rotate90 (rotate90 bm true) true) true) y (bm.width - 1 - x)
          = getPx (rotate90 (rotate90 bm true) true) (bm.width - 1 - x) (bm.height - 1 - y) :=
        getPx_rotate90_cw _ hy (by show bm.width - 1 - x < bm.width; omega)
      have e3 : getPx (rotate90 (rotate90 bm true) true) (bm.width - 1 - x) (bm.height - 1 - y)
          = getPx (rotate90 bm true) (bm.height - 1 - y) (bm.width - 1 - (bm.width - 1 - x)) :=
        getPx_rotate90_cw _ (by show bm.width - 1 - x < bm.width; omega)
          (by show bm.height - 1 - y < bm.height; omega)
      have e4 : getPx (rotate90 bm true) (bm.height - 1 - y) (bm.width - 1 - (bm.width - 1 - x))
          = getPx bm (bm.width - 1 - (bm.width - 1 - x)) (bm.height - 1 - (bm.height - 1 - y)) :=
        getPx_rotate90_cw _ (by omega) (by omega)
      have hx' : bm.width - 1 - (bm.width - 1 - x) = x := by omega
      have hy' : bm.height - 1 - (bm.height - 1 - y) = y := by omega
      rw [e1, e2, e3, e4, hx', hy']
    | false =>
      have e1 : getPx (rotate90 (rotate90 (rotate90 (rotate90 bm false) false) false) false) x y
          = getPx (rotate90 (rotate90 (rotate90 bm false) false) false) (bm.height - 1 - y) x :=
        getPx_rotate90_ccw _ hx hy
      have e2 : getPx (rotate90 (rotate90 (rotate90 bm false) false) false) (bm.height - 1 - y) x
          = getPx (rotate90 (rotate90 bm false) false) (bm.width - 1 - x) (bm.height - 1 - y) :=
        getPx_rotate90_ccw _ (by show bm.height - 1 - y < bm.height; omega) hx
      have e3 : getPx (rotate90 (rotate90 bm false) false) (bm.width - 1 - x) (bm.height - 1 - y)
          = getPx (rotate90 bm false) (bm.height - 1 - (bm.height - 1 - y)) (bm.width - 1 - x) :=
        getPx_rotate90_ccw _ (by show bm.width - 1 - x < bm.width; omega)
          (by show bm.height - 1 - y < bm.height; omega)
      have e4 : getPx (rotate90 bm false) (bm.height - 1 - (bm.height - 1 - y)) (bm.width - 1 - x)
          = getPx bm (bm.width - 1 - (bm.width - 1 - x)) (bm.height - 1 - (bm.height - 1 - y)) :=
        getPx_rotate90_ccw _ (by omega) (by omega)
      have hx' : bm.width - 1 - (bm.width - 1 - x) = x := by omega
      have hy' : bm.height - 1 - (bm.height - 1 - y) = y := by omega
      rw [e1, e2, e3, e4, hx', hy']

/-- C6 witness: a concrete 2 x 3 bitmap with six distinct pixels satisfies
the buffer-length invariant, has its dimensions swapped by one clockwise
rotate90, and is restored exactly by four. -/
theorem rotate90_swap_fourfold_identity_witness :
    (Bitmap.mk 2 3 [⟨1, 0, 0, 255⟩, ⟨2, 0, 0, 255⟩, ⟨3, 0, 0, 255⟩,
        ⟨4, 0, 0, 255⟩, ⟨5, 0, 0, 255⟩, ⟨6, 0, 0, 255⟩]).data.length =
      (Bitmap.mk 2 3 [⟨1, 0, 0, 255⟩, ⟨2, 0, 0, 255⟩, ⟨3, 0, 0, 255⟩,
        ⟨4, 0, 0, 255⟩, ⟨5, 0, 0, 255⟩, ⟨6, 0, 0, 255⟩]).width *
      (Bitmap.mk 2 3 [⟨1, 0, 0, 255⟩, ⟨2, 0, 0, 255⟩, ⟨3, 0, 0, 255⟩,
        ⟨4, 0, 0, 255⟩, ⟨5, 0, 0, 255⟩, ⟨6, 0, 0, 255⟩]).height ∧
    ((rotate90 (Bitmap.mk 2 3 [⟨1, 0, 0, 255⟩, ⟨2, 0, 0, 255⟩, ⟨3, 0, 0, 255⟩,
        ⟨4, 0, 0, 255⟩, ⟨5, 0, 0, 255⟩, ⟨6, 0, 0, 255⟩]) true).width = 3 ∧
      (rotate90 (Bitmap.mk 2 3 [⟨1, 0, 0, 255⟩, ⟨2, 0, 0, 255⟩, ⟨3, 0, 0, 255⟩,
        ⟨4, 0, 0, 255⟩, ⟨5, 0, 0, 255⟩, ⟨6, 0, 0, 255⟩]) true).height = 2 ∧
      rotate90 (rotate90 (rotate90 (rotate90 (Bitmap.mk 2 3
          [⟨1, 0, 0, 255⟩, ⟨2, 0, 0, 255⟩, ⟨3, 0, 0, 255⟩,
           ⟨4, 0, 0, 255⟩, ⟨5, 0, 0, 255⟩, ⟨6, 0, 0, 255⟩]) true) true) true) true =
        Bitmap.mk 2 3 [⟨1, 0, 0, 255⟩, ⟨2, 0, 0, 255⟩, ⟨3, 0, 0, 255⟩,
          ⟨4, 0, 0, 255⟩, ⟨5, 0, 0, 255⟩, ⟨6, 0, 0, 255⟩]) :=
  ⟨by decide,
   rotate90_swap_fourfold_identity
     (Bitmap.mk 2 3 [⟨1, 0, 0, 255⟩, ⟨2, 0, 0, 255⟩, ⟨3, 0, 0, 255⟩,
       ⟨4, 0, 0, 255⟩, ⟨5, 0, 0, 255⟩, ⟨6, 0, 0, 255⟩]) true (by decide)⟩

set_option maxHeartbeats 1000000 in
theorem convChannel_eq_sum (bm : Bitmap) (kernel : List ℚ) (x y : Nat) (sel : RGBA → Nat) :
    convChannel bm kernel x y sel =
      ∑ j ∈ Finset.range 3, ∑ i ∈ Finset.range 3,
        (sel (getPx bm
            ((min ((bm.width : Int) - 1) (max 0 ((x : Int) + (i : Int) - 1))).toNat)
            ((min ((bm.height : Int) - 1) (max 0 ((y : Int) + (j : Int) - 1))).toNat)) : ℚ) *
          kernel.getD (j * 3 + i) 0 := by
  have h1 : (x : Int) + 2 - 1 = (x : Int) + 1 := by ring
  have h2 : (y : Int) + 2 - 1 = (y : Int) + 1 := by ring
  have h3 : (x : Int) + -1 = (x : Int) - 1 := by ring
  have h4 : (y : Int) + -1 = (y : Int) - 1 := by ring
  simp only [convChannel, offsets, List.map_cons, List.map_nil, List.sum_cons, List.sum_nil,
    clampCoord, Finset.sum_range_succ, Finset.sum_range_zero]
  norm_num [h1, h2, h3, h4, show Int.toNat 0 = 0 from rfl, show Int.toNat 1 = 1 from rfl, show Int.toNat 2 = 2 from rfl, show Int.toNat 3 = 3 from rfl, show Int.toNat 4 = 4 from rfl, show Int.toNat 5 = 5 from rfl, show Int.toNat 6 = 6 from rfl, show Int.toNat 7 = 7 from rfl, show Int.toNat 8 = 8 from rfl]
  ring

/-- C3: every output pixel of applyConvolution has each of R, G, B equal to
clamp(round(sum of kernel[j * 3 + i] times the sampled channel, divided by
the divisor)), the 3x3 neighbourhood sampled with coordinates clamped to
[0, width - 1] x [0, height - 1] (edge replication), and its alpha equal to
the input pixel alpha at the same position, unmodified (clamp rounds first
and then clamps to [0, 255], exactly the source clamp). -/
theorem applyConvolution_pixel_formula (bm : Bitmap) (kernel : List ℚ) (divisor : ℚ)
    {x y : Nat} (hx : x < bm.width) (hy : y < bm.height) :
    getPx (applyConvolution bm kernel divisor) x y =
      { r := clamp ((∑ j ∈ Finset.range 3, ∑ i ∈ Finset.range 3,
          ((getPx bm
              ((min ((bm.width : Int) - 1) (max 0 ((x : Int) + (i : Int) - 1))).toNat)
              ((min ((bm.height : Int) - 1) (max 0 ((y : Int) + (j : Int) - 1))).toNat)).r : ℚ) *
            kernel.getD (j * 3 + i) 0) / divisor)
        g := clamp ((∑ j ∈ Finset.range 3, ∑ i ∈ Finset.range 3,
          ((getPx bm
              ((min ((bm.width : Int) - 1) (max 0 ((x : Int) + (i : Int) - 1))).toNat)
              ((min ((bm.height : Int) - 1) (max 0 ((y : Int) + (j : Int) - 1))).toNat)).g : ℚ) *
            kernel.getD (j * 3 + i) 0) / divisor)
        b := clamp ((∑ j ∈ Finset.range 3, ∑ i ∈ Finset.range 3,
          ((getPx bm
              ((min ((bm.width : Int) - 1) (max 0 ((x : Int) + (i : Int) - 1))).toNat)
              ((min ((bm.height : Int) - 1) (max 0 ((y : Int) + (j : Int) - 1))).toNat)).b : ℚ) *
            kernel.getD (j * 3 + i) 0) / divisor)
        a := (getPx bm x y).a } := by
  unfold applyConvolution
  rw [getPx_mk_range _ hx hy]
  simp only [decode_mod hx, decode_div hx]
  rw [convChannel_eq_sum bm kernel x y RGBA.r, convChannel_eq_sum bm kernel x y RGBA.g,
    convChannel_eq_sum bm kernel x y RGBA.b]

/-- A concrete 2 x 2 bitmap for evaluating the convolution formula. -/
def bmC3 : Bitmap :=
  ⟨2, 2, [⟨10, 20, 30, 40⟩, ⟨50, 60, 70, 80⟩, ⟨90, 100, 110, 120⟩, ⟨130, 140, 150, 160⟩]⟩

/-- C3 witness: the per-pixel convolution formula evaluated at pixel (1, 0)
of a concrete 2 x 2 bitmap with the box-blur kernel and divisor 9. -/
theorem applyConvolution_pixel_formula_witness :
    1 < bmC3.width ∧ 0 < bmC3.height ∧
    getPx (applyConvolution bmC3 blurKernel 9) 1 0 =
      { r := clamp ((∑ j ∈ Finset.range 3, ∑ i ∈ Finset.range 3,
          ((getPx bmC3
              ((min ((bmC3.width : Int) - 1) (max 0 (((1 : Nat) : Int) + (i : Int) - 1))).toNat)
              ((min ((bmC3.height : Int) - 1) (max 0 (((0 : Nat) : Int) + (j : Int) - 1))).toNat)).r : ℚ) *
            blurKernel.getD (j * 3 + i) 0) / 9)
        g := clamp ((∑ j ∈ Finset.range 3, ∑ i ∈ Finset.range 3,
          ((getPx bmC3
              ((min ((bmC3.width : Int) - 1) (max 0 (((1 : Nat) : Int) + (i : Int) - 1))).toNat)
              ((min ((bmC3.height : Int) - 1) (max 0 (((0 : Nat) : Int) + (j : Int) - 1))).toNat)).g : ℚ) *
            blurKernel.getD (j * 3 + i) 0) / 9)
        b := clamp ((∑ j ∈ Finset.range 3, ∑ i ∈ Finset.range 3,
          ((getPx bmC3
              ((min ((bmC3.width : Int) - 1) (max 0 (((1 : Nat) : Int) + (i : Int) - 1))).toNat)
              ((min ((bmC3.height : Int) - 1) (max 0 (((0 : Nat) : Int) + (j : Int) - 1))).toNat)).b : ℚ) *
            blurKernel.getD (j * 3 + i) 0) / 9)
        a := (getPx bmC3 1 0).a } :=
  ⟨by decide, by decide,
   applyConvolution_pixel_formula bmC3 blurKernel 9 (by decide) (by decide)⟩

/-- C2 counterexample: on the state with an active 10 x 12 rect, confirmCrop
returns the rect but leaves it stored — the rect is not cleared to null, so
the claimed transition to Inert with rect = null is false. -/
theorem confirmCrop_rect_not_cleared :
    (confirmCrop ⟨true, some ⟨1, 2, 10, 12⟩, false, none⟩).1 = some ⟨1, 2, 10, 12⟩ ∧
    (confirmCrop ⟨true, some ⟨1, 2, 10, 12⟩, false, none⟩).2.rect = some ⟨1, 2, 10, 12⟩ ∧
    (confirmCrop ⟨true, some ⟨1, 2, 10, 12⟩, false, none⟩).2.rect ≠ none := by
  refine ⟨?_, ?_, ?_⟩ <;> decide

/-- C2 (amended): confirmCrop returns null and leaves the whole selection
state unchanged when there is no rect or the rect has w < 4 or h < 4 in
native pixels; otherwise it returns the rect, clears isActive, isDragging
and the drag anchor, but retains the rect (it does not clear it to null). -/
theorem confirmCrop_spec (s : CropSelState) :
    (s.rect = none → confirmCrop s = (none, s)) ∧
    (∀ r, s.rect = some r → (r.w < 4 ∨ r.h < 4) → confirmCrop s = (none, s)) ∧
    (∀ r, s.rect = some r → 4 ≤ r.w → 4 ≤ r.h →
      confirmCrop s =
        (some r, { s with isActive := false, isDragging := false, start := none })) := by
  refine ⟨?_, ?_, ?_⟩
  · intro h
    simp [confirmCrop, h]
  · intro r hr hlt
    simp [confirmCrop, hr, hlt]
  · intro r hr h4w h4h
    simp only [confirmCrop, hr]
    rw [if_neg (by push_neg; exact ⟨h4w, h4h⟩)]

/-- C2 witness: confirmCrop evaluated on a state with a 2 x 9 rect (rejected,
state unchanged) and on a state with a 10 x 12 rect (accepted: the rect is
returned, isActive and isDragging cleared, the rect retained). -/
theorem confirmCrop_spec_witness :
    confirmCrop ⟨true, some ⟨0, 0, 2, 9⟩, true, some (1, 1)⟩ =
      (none, ⟨true, some ⟨0, 0, 2, 9⟩, true, some (1, 1)⟩) ∧
    confirmCrop ⟨true, some ⟨1, 2, 10, 12⟩, true, some (1, 1)⟩ =
      (some ⟨1, 2, 10, 12⟩, ⟨false, some ⟨1, 2, 10, 12⟩, false, none⟩) :=
  ⟨(confirmCrop_spec ⟨true, some ⟨0, 0, 2, 9⟩, true, some (1, 1)⟩).2.1
      ⟨0, 0, 2, 9⟩ rfl (Or.inl (by norm_num)),
   (confirmCrop_spec ⟨true, some ⟨1, 2, 10, 12⟩, true, some (1, 1)⟩).2.2
      ⟨1, 2, 10, 12⟩ rfl (by norm_num) (by norm_num)⟩

/-- C7: every pointer position is clamped to
[0, canvasDisplayWidth] x [0, canvasDisplayHeight] before being scaled to
native coordinates, so drags outside the visible area saturate at the edge;
and the concrete scenario: on a 100 x 100 display of a 200 x 200 native
image, activating crop, dragging from display point (10, 10) to (2, 2) and
releasing gives a committed native rect (x = 4, y = 4, w = 16, h = 16) from
confirmCrop. -/
theorem cropMapper_clamp_scenario :
    (∀ (cfg : CropConfig) (cx cy : ℚ),
      0 ≤ cfg.canvasDisplayWidth → 0 ≤ cfg.canvasDisplayHeight →
      0 ≤ (getRelativePos cfg cx cy).1 ∧
      (getRelativePos cfg cx cy).1 ≤ cfg.canvasDisplayWidth ∧
      0 ≤ (getRelativePos cfg cx cy).2 ∧
      (getRelativePos cfg cx cy).2 ≤ cfg.canvasDisplayHeight) ∧
    confirmCrop (handleMouseUp (handleMouseMove ⟨100, 100, 200, 200⟩
        (handleMouseDown ⟨100, 100, 200, 200⟩ (activateCrop ⟨false, none, false, none⟩) 10 10)
        2 2)) =
      (some ⟨4, 4, 16, 16⟩, ⟨false, some ⟨4, 4, 16, 16⟩, false, none⟩) := by
  constructor
  · intro cfg cx cy hw hh
    exact ⟨le_max_left _ _, max_le hw (min_le_left _ _),
      le_max_left _ _, max_le hh (min_le_left _ _)⟩
  · norm_num [confirmCrop, handleMouseUp, handleMouseMove, handleMouseDown, activateCrop,
      getRelativePos, scaleX, scaleY, abs]

/-- C7 witness: the clamping bounds evaluated at the display point
(150, -7), outside the 100 x 100 display area, together with the concrete
drag scenario. -/
theorem cropMapper_clamp_scenario_witness :
    (0 ≤ (getRelativePos ⟨100, 100, 200, 200⟩ 150 (-7)).1 ∧
     (getRelativePos ⟨100, 100, 200, 200⟩ 150 (-7)).1 ≤
       (CropConfig.mk 100 100 200 200).canvasDisplayWidth ∧
     0 ≤ (getRelativePos ⟨100, 100, 200, 200⟩ 150 (-7)).2 ∧
     (getRelativePos ⟨100, 100, 200, 200⟩ 150 (-7)).2 ≤
       (CropConfig.mk 100 100 200 200).canvasDisplayHeight) ∧
    confirmCrop (handleMouseUp (handleMouseMove ⟨100, 100, 200, 200⟩
        (handleMouseDown ⟨100, 100, 200, 200⟩ (activateCrop ⟨false, none, false, none⟩) 10 10)
        2 2)) =
      (some ⟨4, 4, 16, 16⟩, ⟨false, some ⟨4, 4, 16, 16⟩, false, none⟩) :=
  ⟨cropMapper_clamp_scenario.1 ⟨100, 100, 200, 200⟩ 150 (-7) (by norm_num) (by norm_num),
   cropMapper_clamp_scenario.2⟩

theorem iterate_blur_dims (n : Nat) (b : Bitmap) :
    ((fun bb => applyConvolution bb blurKernel 9)^[n] b).width = b.width ∧
    ((fun bb => applyConvolution bb blurKernel 9)^[n] b).height = b.height := by
  induction n generalizing b with
  | zero => exact ⟨rfl, rfl⟩
  | succ k ih =>
    rw [Function.iterate_succ_apply]
    exact ⟨(ih _).1.trans rfl, (ih _).2.trans rfl⟩

theorem applyNoiseReduction_dims (bm : Bitmap) (i : ℚ) :
    (applyNoiseReduction bm i).width = bm.width ∧
    (applyNoiseReduction bm i).height = bm.height := by
  unfold applyNoiseReduction
  split
  · exact ⟨rfl, rfl⟩
  · exact iterate_blur_dims _ _

theorem applyBrightness_dims (bm : Bitmap) (v : ℚ) :
    (applyBrightness bm v).width = bm.width ∧ (applyBrightness bm v).height = bm.height := by
  unfold applyBrightness
  split <;> exact ⟨rfl, rfl⟩

theorem applyContrast_dims (bm : Bitmap) (v : ℚ) :
    (applyContrast bm v).width = bm.width ∧ (applyContrast bm v).height = bm.height := by
  unfold applyContrast
  split <;> exact ⟨rfl, rfl⟩

theorem applySaturation_dims (bm : Bitmap) (v : ℚ) :
    (applySaturation bm v).width = bm.width ∧ (applySaturation bm v).height = bm.height := by
  unfold applySaturation
  split <;> exact ⟨rfl, rfl⟩

theorem applySharpen_dims (bm : Bitmap) (v : ℚ) :
    (applySharpen bm v).width = bm.width ∧ (applySharpen bm v).height = bm.height := by
  unfold applySharpen
  split <;> exact ⟨rfl, rfl⟩

/-- C8 counterexample: a pending crop rect (0, 0, 1/3, 1/3) has positive
width and height, so applyAdjustments applies the crop, and the rounded
output dimensions are 0 x 0: the output is a zero-area bitmap, not the
unchanged input — no at-least-1-pixel rounding guard exists. -/
theorem applyAdjustments_zero_area_counterexample :
    ((0 : ℚ) < 1 / 3) ∧
    (applyAdjustments (fun _ b => b) ⟨1, 1, [⟨9, 9, 9, 255⟩]⟩
        ⟨0, 0, 100, 0, 0, 0, some ⟨0, 0, 1 / 3, 1 / 3⟩⟩).width = 0 ∧
    (applyAdjustments (fun _ b => b) ⟨1, 1, [⟨9, 9, 9, 255⟩]⟩
        ⟨0, 0, 100, 0, 0, 0, some ⟨0, 0, 1 / 3, 1 / 3⟩⟩).height = 0 ∧
    applyAdjustments (fun _ b => b) ⟨1, 1, [⟨9, 9, 9, 255⟩]⟩
        ⟨0, 0, 100, 0, 0, 0, some ⟨0, 0, 1 / 3, 1 / 3⟩⟩ ≠ ⟨1, 1, [⟨9, 9, 9, 255⟩]⟩ := by
  have hpipe : applyAdjustments (fun _ b => b) ⟨1, 1, [⟨9, 9, 9, 255⟩]⟩
      ⟨0, 0, 100, 0, 0, 0, some ⟨0, 0, 1 / 3, 1 / 3⟩⟩ =
      cropBitmap ⟨1, 1, [⟨9, 9, 9, 255⟩]⟩ ⟨0, 0, 1 / 3, 1 / 3⟩ := by
    unfold applyAdjustments
    norm_num
    rw [applyNoiseReduction_neutral, applyBrightness_neutral, applyContrast_neutral,
      applySaturation_neutral, applySharpen_neutral]
  have hW : (applyAdjustments (fun _ b => b) ⟨1, 1, [⟨9, 9, 9, 255⟩]⟩
      ⟨0, 0, 100, 0, 0, 0, some ⟨0, 0, 1 / 3, 1 / 3⟩⟩).width = 0 := by
    rw [hpipe]
    show (round ((1 : ℚ) / 3)).toNat = 0
    norm_num [round_eq]
  have hH : (applyAdjustments (fun _ b => b) ⟨1, 1, [⟨9, 9, 9, 255⟩]⟩
      ⟨0, 0, 100, 0, 0, 0, some ⟨0, 0, 1 / 3, 1 / 3⟩⟩).height = 0 := by
    rw [hpipe]
    show (round ((1 : ℚ) / 3)).toNat = 0
    norm_num [round_eq]
  refine ⟨by norm_num, hW, hH, ?_⟩
  intro h
  rw [h] at hW
  simp at hW

/-- C8 (amended): there is no explicit at-least-1-pixel guard; a pending
crop rect with positive but sub-half-pixel width or height does produce a
zero-area output bitmap.  However, every crop rect that passes confirmCrop
validation (w >= 4 and h >= 4 in native pixels) yields, with no free
rotation pending, an applyAdjustments output of width and height at least 1
(in fact at least 4), since the rounded crop dimensions are at least the
rect dimensions rounded down and every pixel filter preserves dimensions. -/
theorem applyAdjustments_confirmed_crop_dims (rotatePrim : ℚ → Bitmap → Bitmap)
    (bm : Bitmap) (r : CropRect) (opts : AdjustOptions)
    (hc : opts.cropRect = some r) (hw : 4 ≤ r.w) (hh : 4 ≤ r.h)
    (hrot : opts.rotation = 0) :
    1 ≤ (applyAdjustments rotatePrim bm opts).width ∧
    1 ≤ (applyAdjustments rotatePrim bm opts).height := by
  have hcw : (1 : Int) ≤ round r.w := by
    have h1 : (4 : Int) ≤ ⌊r.w⌋ := by
      rw [Int.le_floor]
      exact_mod_cast hw
    have h2 : ⌊r.w⌋ ≤ round r.w := by
      rw [round_eq]
      exact Int.floor_mono (by linarith)
    omega
  have hch : (1 : Int) ≤ round r.h := by
    have h1 : (4 : Int) ≤ ⌊r.h⌋ := by
      rw [Int.le_floor]
      exact_mod_cast hh
    have h2 : ⌊r.h⌋ ≤ round r.h := by
      rw [round_eq]
      exact Int.floor_mono (by linarith)
    omega
  have hbase : 1 ≤ (cropBitmap bm r).width ∧ 1 ≤ (cropBitmap bm r).height := by
    constructor
    · show 1 ≤ (round r.w).toNat
      omega
    · show 1 ≤ (round r.h).toNat
      omega
  unfold applyAdjustments
  simp only [hc, hrot]
  rw [if_pos (⟨by linarith, by linarith⟩ : r.w > 0 ∧ r.h > 0)]
  rw [if_neg (by simp)]
  rw [(applySharpen_dims _ _).1, (applySaturation_dims _ _).1, (applyContrast_dims _ _).1,
    (applyBrightness_dims _ _).1, (applyNoiseReduction_dims _ _).1]
  rw [(applySharpen_dims _ _).2, (applySaturation_dims _ _).2, (applyContrast_dims _ _).2,
    (applyBrightness_dims _ _).2, (applyNoiseReduction_dims _ _).2]
  exact hbase

/-- C8 witness: a 4 x 4 pending crop rect (the confirmCrop minimum) on a
1 x 1 bitmap with no rotation yields output dimensions at least 1. -/
theorem applyAdjustments_confirmed_crop_dims_witness :
    1 ≤ (applyAdjustments (fun _ b => b) ⟨1, 1, [⟨9, 9, 9, 255⟩]⟩
        ⟨0, 0, 100, 0, 0, 0, some ⟨0, 0, 4, 4⟩⟩).width ∧
    1 ≤ (applyAdjustments (fun _ b => b) ⟨1, 1, [⟨9, 9, 9, 255⟩]⟩
        ⟨0, 0, 100, 0, 0, 0, some ⟨0, 0, 4, 4⟩⟩).height :=
  applyAdjustments_confirmed_crop_dims (fun _ b => b) ⟨1, 1, [⟨9, 9, 9, 255⟩]⟩
    ⟨0, 0, 4, 4⟩ ⟨0, 0, 100, 0, 0, 0, some ⟨0, 0, 4, 4⟩⟩ rfl (by norm_num) (by norm_num) rfl

/-- C9 (amended): finalizeUpload errs and leaves the state (in particular
the stored images) unchanged when the session does not exist, and also
whenever the stored chunk-entry count differs from totalChunks or some index
below totalChunks is missing — under the Map distinct-key invariant this
success condition says the received indices are exactly 0 .. totalChunks - 1,
so extra chunks at indices at or above totalChunks also cause an error even
though every required index was received.  On success it returns the chunks
concatenated in increasing index order (the enhancement step is a
pass-through on the bytes), stores them under the fresh id
"image-" ++ nextImageId, and removes the session. -/
theorem finalizeUpload_spec (st : BackendState) (sid : String) (mode : EnhancementMode) :
    (mapGet st.uploadSessions sid = none →
      finalizeUpload st sid mode = (⟨none, "no upload session found"⟩, st)) ∧
    (∀ session, mapGet st.uploadSessions sid = some session →
      (¬ (mapSize session.receivedChunks = session.totalChunks ∧
          ∀ i, i < session.totalChunks → (mapGet session.receivedChunks i).isSome = true) →
        (finalizeUpload st sid mode).1.ok = none ∧
        (finalizeUpload st sid mode).2 = st) ∧
      ((mapSize session.receivedChunks = session.totalChunks ∧
          ∀ i, i < session.totalChunks → (mapGet session.receivedChunks i).isSome = true) →
        finalizeUpload st sid mode =
          (⟨some ("image-" ++ toString st.nextImageId, assembleChunks session), ""⟩,
           { images := mapAdd st.images ("image-" ++ toString st.nextImageId)
               (assembleChunks session)
             uploadSessions := mapRemove st.uploadSessions sid
             nextImageId := st.nextImageId + 1 }))) ∧
    (∀ (img : List Nat) (m : EnhancementMode), applyEnhancement img m = img) := by
  refine ⟨?_, ?_, fun img m => rfl⟩
  · intro h
    unfold finalizeUpload
    rw [h]
  · intro session hs
    constructor
    · intro hne
      unfold finalizeUpload
      simp only [hs]
      by_cases hsz : mapSize session.receivedChunks = session.totalChunks
      · rw [if_neg (not_not_intro hsz)]
        rcases hfd : (List.range session.totalChunks).find?
            (fun i => (mapGet session.receivedChunks i).isNone) with _ | j
        · exfalso
          apply hne
          refine ⟨hsz, fun i hi => ?_⟩
          have h3 := List.find?_eq_none.mp hfd i (List.mem_range.mpr hi)
          simp only [Option.isNone_iff_eq_none, decide_eq_true_eq] at h3
          simpa [Option.isSome_iff_ne_none] using h3
        · exact ⟨rfl, rfl⟩
      · rw [if_pos hsz]
        exact ⟨rfl, rfl⟩
    · intro hok
      unfold finalizeUpload
      simp only [hs]
      rw [if_neg (not_not_intro hok.1)]
      have hfd : (List.range session.totalChunks).find?
          (fun i => (mapGet session.receivedChunks i).isNone) = none := by
        apply List.find?_eq_none.mpr
        intro i hi
        have h3 := hok.2 i (List.mem_range.mp hi)
        simp only [Option.isNone_iff_eq_none, decide_eq_true_eq]
        simpa [Option.isSome_iff_ne_none] using h3
      rw [hfd]
      by_cases hfe : assembleChunks session = []
      · simp [applyEnhancement, hfe]
      · simp [applyEnhancement, hfe]

/-- C9 witness: finalizeUpload on a missing session errs and leaves the
state unchanged; on a session whose two chunks [1, 2] and [3] are both
present it returns their in-order concatenation, stores it under the fresh
image id, and removes the session. -/
theorem finalizeUpload_spec_witness :
    finalizeUpload ⟨[], [], 0⟩ "nope" EnhancementMode.standard =
      (⟨none, "no upload session found"⟩, ⟨[], [], 0⟩) ∧
    finalizeUpload ⟨[], [("s", ⟨2, [(0, [1, 2]), (1, [3])], "png"⟩)], 0⟩ "s"
        EnhancementMode.standard =
      (⟨some ("image-" ++ toString (0 : Nat),
          assembleChunks ⟨2, [(0, [1, 2]), (1, [3])], "png"⟩), ""⟩,
       ⟨mapAdd ([] : List (String × List Nat)) ("image-" ++ toString (0 : Nat))
          (assembleChunks ⟨2, [(0, [1, 2]), (1, [3])], "png"⟩),
        mapRemove [("s", ⟨2, [(0, [1, 2]), (1, [3])], "png"⟩)] "s",
        0 + 1⟩) :=
  ⟨(finalizeUpload_spec ⟨[], [], 0⟩ "nope" EnhancementMode.standard).1 rfl,
   ((finalizeUpload_spec ⟨[], [("s", ⟨2, [(0, [1, 2]), (1, [3])], "png"⟩)], 0⟩ "s"
        EnhancementMode.standard).2.1 ⟨2, [(0, [1, 2]), (1, [3])], "png"⟩ (by decide)).2
     ⟨rfl, by decide⟩⟩

/-- The backend state after initUpload with one expected chunk. -/
def stC9a : BackendState := (initUpload ⟨[], [], 0⟩ 1 "image/png").2

/-- The state after uploading chunk 0. -/
def stC9b : BackendState := (uploadChunk stC9a "Session-0" 0 [7]).getD ⟨[], [], 0⟩

/-- The state after additionally uploading an extra chunk at index 1,
beyond the declared totalChunks = 1 (uploadChunk has no bounds check). -/
def stC9c : BackendState := (uploadChunk stC9b "Session-0" 1 [8]).getD ⟨[], [], 0⟩

/-- C9 counterexample: in state stC9c the session exists with
totalChunks = 1 and chunk index 0 received — every index in [0, 1) has been
received — yet finalizeUpload returns the error "all chunks not received
yet" (the entry count 2 differs from totalChunks 1) and stores nothing. -/
theorem finalizeUpload_extra_chunk_counterexample :
    mapGet stC9c.uploadSessions "Session-0" =
      some ⟨1, [(1, [8]), (0, [7])], "image/png"⟩ ∧
    mapGet ([(1, [8]), (0, [7])] : List (Nat × List Nat)) 0 = some [7] ∧
    (finalizeUpload stC9c "Session-0" EnhancementMode.standard).1.ok = none ∧
    (finalizeUpload stC9c "Session-0" EnhancementMode.standard).1.err =
      "all chunks not received yet" ∧
    (finalizeUpload stC9c "Session-0" EnhancementMode.standard).2 = stC9c := by
  refine ⟨?_, ?_, ?_, ?_, ?_⟩ <;> decide

/-- C10: starting from any EnhancementValues record whose fields all lie in
their declared ranges (brightness and contrast in [-100, 100], saturation in
[0, 200], sharpness and noiseReduction in [0, 100], rotation in [-45, 45]),
any single-field update through the control surface — the slider clamped to
its [min, max] props composed with the functional record update — yields a
record whose fields again all lie in their ranges: the record is never
partially invalid. -/
theorem setField_preserves_valid (vals : EnhancementValues) (f : EField) (v : ℚ)
    (h : validValues vals) : validValues (setField vals f v) := by
  obtain ⟨h1, h2, h3, h4, h5, h6, h7, h8, h9, h10, h11, h12⟩ := h
  cases f <;>
    refine ⟨?_, ?_, ?_, ?_, ?_, ?_, ?_, ?_, ?_, ?_, ?_, ?_⟩ <;>
    first
      | assumption
      | exact le_max_left _ _
      | exact max_le (by norm_num [fieldBounds]) (min_le_left _ _)

/-- C10 witness: the default record is valid, and updating its brightness
with the out-of-range slider input 1000 clamps it into range, keeping every
field valid. -/
theorem setField_preserves_valid_witness :
    validValues DEFAULT_ENHANCEMENT_VALUES ∧
    validValues (setField DEFAULT_ENHANCEMENT_VALUES EField.brightness 1000) :=
  ⟨by decide, setField_preserves_valid DEFAULT_ENHANCEMENT_VALUES EField.brightness 1000
    (by decide)⟩

end PixelBoost
